import Mathlib

/-!
A shallow embedding of the deterministic fallback scoring endpoint of the
three-whys-assessor repository, together with proofs of the behavioural
properties stated in its specification.  The embedding follows the
serverless endpoint variant that carries the full fallback scorer
(src/unnamed/part_003) and, for the HTTP method gate, also the edge
variant (src/evaluate.js).  String primitives model the JavaScript ones
on the ASCII fragment, which covers every string the source manipulates.
-/

namespace ThreeWhys

/-- ASCII fragment of the JavaScript whitespace class used by trim, by
split(/\s+/) and by the normalisation regex. -/
def isJsSpace (c : Char) : Bool :=
  c == ' ' || c == '\t' || c == '\n' || c == '\r' || c == '\x0b' || c == '\x0c'

/-- Model of String.prototype.trim: drop whitespace from both ends. -/
def jsTrim (s : String) : String :=
  String.mk (((s.data.dropWhile isJsSpace).reverse.dropWhile isJsSpace).reverse)

/-- Model of String.prototype.toLowerCase on the ASCII fragment. -/
def jsToLower (s : String) : String :=
  String.mk (s.data.map Char.toLower)

/-- Characters kept by the normalisation replace(/[^a-z0-9\s]/g, ''). -/
def keepChar (c : Char) : Bool :=
  (decide ('a' ≤ c) && decide (c ≤ 'z')) ||
    (decide ('0' ≤ c) && decide (c ≤ '9')) || isJsSpace c

/-- Counts maximal runs of non-whitespace characters; the flag records
whether the previous character was inside a word. -/
def countWordsGo : Bool → List Char → Nat
  | _, [] => 0
  | inWord, c :: rest =>
    if isJsSpace c then countWordsGo false rest
    else (if inWord then 0 else 1) + countWordsGo true rest

/-- On a trimmed non-empty string this equals split(/\s+/).length. -/
def countWords (l : List Char) : Nat := countWordsGo false l

/-- Does the second character list start with the first? -/
def leadsWith : List Char → List Char → Bool
  | [], _ => true
  | _ :: _, [] => false
  | c :: cs, d :: ds => c == d && leadsWith cs ds

/-- Occurrence of the first character list anywhere inside the second. -/
def occursIn : List Char → List Char → Bool
  | pat, [] => pat.isEmpty
  | pat, c :: rest => leadsWith pat (c :: rest) || occursIn pat rest

/-- Model of String.prototype.includes. -/
def jsIncludes (s pat : String) : Bool := occursIn pat.data s.data

/-- A why/how narrative pair from the messageTemplates table. -/
structure MsgPair where
  why : String
  how : String
  deriving Repr, DecidableEq
/-- The fixed list of unknown phrases from fallbackEvaluate (part_003, lines 220-225). -/
def unknownPatterns : List String :=
  ["i don\x27t know",
   "i don’t know",
   "dont know",
   "do not know",
   "unknown",
   "none",
   "n/a",
   "na",
   "inexistent",
   "no idea",
   "not sure",
   "don’t have",
   "don\x27t have",
   "dont have",
   "missing",
   "not available",
   "unavailable",
   "not provided",
   "not existing",
   "not exist",
   "no data",
   "no information",
   "not applicable",
   "not present",
   "not disposable"]

/-- The per-dimension, per-level narrative table messageTemplates (part_003, lines 79-212). -/
def messageTemplates : List (String × List (String × MsgPair)) :=
  [  ("Why change",
     [("None",
       ⟨"Your answer is missing or expresses uncertainty about the buyer or their pain. Without identifying who you serve and what problem they face, there is no foundation for explaining why a change is needed. This dimension remains unaddressed because there is nothing to evaluate.",
        "Start by researching your ideal buyer and documenting their top pain points. Talk to customers to uncover the emotional drivers behind the problem and quantify its impact. Use those insights to craft a clear statement about why the status quo is unacceptable and change is necessary."⟩),
      ("Emerging",
       ⟨"You hint at a buyer or problem, but the connection is shallow. You don’t describe the person, the context or the consequences of the pain. As a result, readers cannot understand why this issue matters or why your buyer should pay attention.",
        "Clarify who your buyer is and describe their pain in vivid detail. Explain how the problem affects their goals and well‑being. Use anecdotes or data to show the scale of the pain and why it cannot be ignored. This will strengthen your case for change."⟩),
      ("Basic",
       ⟨"You identify the buyer and state a clear pain, but the description is surface‑level. It lacks depth about the emotional stakes or the quantifiable cost of the problem. Without deeper insight, it fails to inspire action or convey urgency.",
        "Deepen your explanation by highlighting the emotions driving the buyer’s pain and quantifying the cost of inaction. Add customer stories or industry statistics. Show empathy for the buyer’s struggle and connect the pain to concrete business outcomes to motivate change."⟩),
      ("Advanced",
       ⟨"You articulate the buyer and their pain with a good balance of storytelling and data. However, the answer could benefit from unique insights or broader industry context that underscores the problem’s significance. Without fresh perspectives, it might still feel generic.",
        "Enrich your narrative with proprietary research or market trends that show why the pain persists. Connect the buyer’s frustration to larger industry shifts and emphasise why existing solutions fall short. Position your insight as uniquely suited to address these deeper challenges."⟩),
      ("Leading",
       ⟨"Your description of the buyer’s pain is comprehensive and compelling. It seamlessly blends empathy with quantifiable evidence, making a persuasive case for change. You demonstrate deep understanding of the buyer’s world and why the current situation cannot stand.",
        "Continue to refine your insights by gathering ongoing feedback from buyers. Share new stories and data to keep your narrative fresh. Ensure all internal teams align on this message and adapt it as your market evolves, reinforcing your leadership position."⟩)]),
  ("Why now",
     [("None",
       ⟨"You did not identify any trigger or sense of urgency. Without specifying what makes this issue critical in the next months, there is no reason to prioritise it. The urgency dimension cannot be scored without context.",
        "Look for specific triggers that make acting in the next three to six months essential. These could be competitive threats, regulatory deadlines, market trends or budget cycles. Explain how waiting would hurt the buyer and quantify the implications of delay."⟩),
      ("Emerging",
       ⟨"You suggest a reason to act now, but the explanation lacks depth and connection to the buyer’s business. The urgency feels generic and does not convey why action within the next months is critical.",
        "Describe the catalyst that makes this issue urgent and tie it to tangible consequences. Use stories or data showing the impact of recent market changes or upcoming deadlines. Highlight what happens if action is delayed beyond a three‑to‑six‑month window."⟩),
      ("Basic",
       ⟨"You provide a reason to act now, but it lacks evidence or emotional resonance. The trigger is stated but not fully explored or linked to the buyer’s pain. As a result, the sense of urgency remains moderate.",
        "Strengthen the urgency by quantifying the costs of delay and linking the trigger to milestones in the buyer’s world—such as budget cycles, strategic reviews or industry shifts. Show how acting now will provide a competitive advantage while procrastination leads to risk."⟩),
      ("Advanced",
       ⟨"You clearly explain the triggers and urgency, combining emotional and logical elements. However, the narrative may still rely on common examples. Adding proprietary data or visionary insights could make the urgency more distinctive.",
        "Provide specific statistics or case studies showing the benefits of acting promptly and the risks of waiting. Connect the urgency to broader industry shifts and illustrate your foresight in anticipating these changes. Make the argument for immediate action feel inevitable."⟩),
      ("Leading",
       ⟨"Your urgency narrative is compelling and credible. It integrates internal pressures and external market forces, backed by data and emotional resonance. The reader clearly understands the cost of inaction and the need to move quickly.",
        "Keep your urgency story current by monitoring new market signals and buyer priorities. Update your narrative with fresh insights and align stakeholders around the timeline. Use your foresight to predict emerging trends and maintain urgency at the forefront of discussions."⟩)]),
  ("Why your company",
     [("None",
       ⟨"You provide no explanation of why your company is uniquely qualified. Without differentiators or proof, there is nothing to evaluate. This dimension is left unanswered.",
        "Identify two or three qualities that set your company apart, such as expertise, technology or methodology. Provide a proof point—like a customer testimonial or performance statistic—that validates each differentiator. This will begin to establish credibility."⟩),
      ("Emerging",
       ⟨"You mention a differentiator but fail to show how it connects to the buyer’s problem. There is no evidence or context, making the claim feel generic. Your credibility remains unestablished.",
        "Relate your differentiators to the buyer’s pain. Explain why they matter and how they uniquely address the problem. Support your claims with proof, such as case studies, awards or metrics. Focus on the buyer’s perspective rather than internal achievements."⟩),
      ("Basic",
       ⟨"You list differentiators and a proof point, but you don’t explain why they matter to the buyer. The narrative feels like a checklist rather than a tailored argument. The buyer may still question your relevance.",
        "Translate each differentiator into a buyer benefit. Describe how your track record with similar customers demonstrates your ability to solve their problem. Highlight your purpose or mission and why it aligns with the buyer’s values or ambitions."⟩),
      ("Advanced",
       ⟨"You explain why your company is the right partner with a balance of differentiators and evidence. However, the narrative could include more unique insights or emotional appeal to stand out from competitors.",
        "Deepen your story by sharing your company’s origin, mission and vision, and showing how they resonate with the buyer’s ambitions. Introduce thought leadership or innovative practices that prove your commitment to solving the problem in a unique way."⟩),
      ("Leading",
       ⟨"You deliver a compelling and inspiring explanation of why your company is uniquely suited to help. Differentiators are clear, proof is strong and the story resonates emotionally. You establish trust and excitement.",
        "Maintain your edge by continuously innovating and refining your differentiators. Gather new customer success stories and third‑party validation. Stay true to your mission and show how your culture and values empower the buyer’s success."⟩)]),
  ("Emotion–Logic",
     [("None",
       ⟨"You provided no emotional hook or logical statement. Without a headline, there is no demonstration of your ability to lead with emotion and support with logic. This leaves us unable to assess this dimension.",
        "Develop a concise headline that evokes an emotion (fear, ambition, relief) while hinting at the change you enable. Follow it with a logical benefit or fact. Keep it short, inspiring and aligned with your buyer’s pain."⟩),
      ("Emerging",
       ⟨"Your headline is extremely brief or generic. It lacks emotional resonance and fails to connect to a logical benefit. As a result, it does not capture attention or convey your value proposition.",
        "Rewrite the headline to focus on the buyer’s emotions. Use vivid language that paints a picture of the desired change. Then add a logical element, such as a quantifiable outcome, to show the benefit of acting."⟩),
      ("Basic",
       ⟨"You produce a headline that hints at either emotion or logic, but not both. It shows some understanding of the need to hook and justify, yet the message feels unbalanced or uninspiring.",
        "Balance your headline by combining an emotional driver with a logical payoff. For example, start with a phrase that stirs fear or ambition and end with a measurable result. Test different versions and refine based on feedback."⟩),
      ("Advanced",
       ⟨"Your headline effectively blends emotion and logic, but it may rely on standard phrasing or lack unique flair. It is good but not yet memorable or distinctive.",
        "Add a distinctive element such as a surprising statistic, a play on words, or a narrative twist that makes your headline stand out. Ensure it aligns with your brand and resonates with your specific buyer segment."⟩),
      ("Leading",
       ⟨"Your headline is exceptional. It is short, memorable and conveys both the emotional journey and the logical benefit. It instantly communicates the transformation you offer and inspires immediate attention.",
        "Keep experimenting with creative expressions as your offerings evolve. Use A/B testing to optimise the phrasing for different contexts. Train your team to use this headline consistently and adapt it for various channels and audiences."⟩)]),
  ("Buyer‑as‑hero",
     [("None",
       ⟨"You did not quantify any outcomes or articulate assumptions, leaving no story about the buyer’s journey or success. Without numbers or context, the buyer’s hero’s journey is absent.",
        "Quantify at least two outcomes your solution delivers—such as time saved, revenue gained, or risks avoided. State the assumptions behind your numbers, like team size or baseline metrics. Frame your buyer as the hero whose success grows through these results."⟩),
      ("Emerging",
       ⟨"You mention outcomes but fail to provide numbers or tie them to the buyer’s story. The benefits feel abstract and the buyer does not see themselves in the narrative.",
        "Provide specific metrics that illustrate the impact of your solution. Explain how these improvements elevate the buyer’s status, performance or well‑being. Use transparent assumptions and show the before‑and‑after transformation."⟩),
      ("Basic",
       ⟨"You share some metrics but they are generic or disconnected from the buyer’s goals. The story does not clearly position the buyer as the hero achieving these results. It feels like a list of benefits rather than a personal journey.",
        "Relate each metric to the buyer’s objectives and responsibilities. Show how improved time, revenue or risk reduction makes the buyer more effective or respected. Provide context—such as current benchmarks—to demonstrate the significance of the gains."⟩),
      ("Advanced",
       ⟨"You present credible metrics and assumptions and begin to tell a story. However, the narrative could be more inspiring and specific. It may rely on general statistics rather than an evocative hero journey.",
        "Frame the buyer’s journey as overcoming a challenge with your solution. Use case studies or anecdotes to illustrate real customers achieving these outcomes. Make sure the story highlights personal growth and professional impact."⟩),
      ("Leading",
       ⟨"You create a powerful, data‑driven story that clearly shows the buyer as the hero. The metrics are meaningful and the narrative inspires confidence and pride. This sets a high bar for storytelling.",
        "Continue collecting success stories and updating your metrics. Tailor your narrative for different buyer personas so they can envision their own victory. Use multimedia assets like quotes or short videos to deepen the emotional connection."⟩)]),
  ("Clarity",
     [("None",
       ⟨"You did not provide a one‑sentence value proposition or indicated you do not have one. Without a concise statement of who you serve, the problem and the benefit, we cannot assess clarity. This dimension is unaddressed.",
        "Compose a clear, single sentence that names your buyer, states the problem you solve and describes the impact you deliver. Eliminate jargon and aim for simplicity. This sentence should be easy to remember and form the core of your messaging."⟩),
      ("Emerging",
       ⟨"Your value proposition is vague or incomplete. It may lack one or more of the essential elements: the buyer, the problem or the impact. It reads like a tagline and does not provide clarity.",
        "Rewrite your sentence to explicitly mention the audience, the pain and the benefit in plain language. Avoid buzzwords. Provide context or numbers to make the proposition feel real. This will sharpen the clarity and focus of your message."⟩),
      ("Basic",
       ⟨"You provide a value proposition that covers the basics but it is generic and fails to highlight what makes you unique. The wording may be formulaic or reliant on common phrases.",
        "Refine the sentence to emphasise your unique approach or differentiator. Use active voice and incorporate a hint of emotion. Ensure that it flows naturally and stands out from typical statements. Test it with customers to ensure it resonates."⟩),
      ("Advanced",
       ⟨"You craft a concise and distinctive value proposition that clearly states the buyer, problem and impact. It is strong but could include a bit more specificity or creativity to be truly outstanding.",
        "Add a unique detail like a metric, proprietary method or compelling adjective that makes your value proposition unforgettable. Align the tone with your brand personality and ensure it resonates across multiple buyer personas."⟩),
      ("Leading",
       ⟨"Your value proposition is succinct, unique and magnetic. It clearly communicates who you serve, what you solve and how you transform the buyer’s world. It stands out and stays in the mind.",
        "Continue to iterate as your offering evolves and your market changes. Use the one‑sentence value proposition as a north star for all messaging. Encourage team members to internalise and deliver it consistently."⟩)])]

/-- The band-keyed executive summary table summaryMap (part_003, lines 275-281). -/
def summaryMap : List (String × String) :=
  [("None",
    "Your assessment indicates there is currently no structured value proposition. Without a clear understanding of your buyer, urgency or differentiation, it will be difficult to craft a message that resonates. Start by articulating each of the Three Whys in detail and gather proof points to build credibility. Identify who your ideal customer is, what pain they experience, why addressing that pain now matters, and why your approach uniquely solves it. Write down your narrative and refine it through customer conversations. Doing so will lay the foundation for a clear, compelling value proposition."),
   ("Emerging",
    "Your value proposition is still forming. You’ve identified key elements but the answers lack sufficient context and proof. At this stage it’s important to research your buyer’s motivations and gather data to support your claims. Spend time interviewing customers, mapping their pain points, and quantifying the costs of inaction. Use those insights to enrich your messaging. Document differentiators and proof points like case studies or benchmarks. This groundwork will help you move from an emerging story to a convincing narrative."),
   ("Basic",
    "You have a foundational value proposition. You identify the buyer, their pain and why now, but there’s room to add more specificity and differentiation. Strengthen your message by connecting emotional hooks to quantitative evidence and tailoring your story to the buyer’s needs. Include specific examples of how your solution has addressed similar challenges, data that underscores urgency, and unique capabilities that competitors lack. The more you tie emotion to logic and show measurable outcomes, the more persuasive your message will become."),
   ("Advanced",
    "Your value proposition is strong and well crafted. You balance emotional hooks with logical proof and clearly articulate why change is needed now and why you are the right partner. To elevate further, incorporate more unique proof points and refine your differentiation based on customer feedback. Continue refining your narrative by integrating fresh customer stories and industry trends, and make sure your messaging remains consistent across all channels and stakeholders. Frequent iteration ensures you maintain relevance and stay ahead of competitors."),
   ("Leading",
    "Congratulations! Your value proposition is industry leading. You demonstrate mastery of the Three Whys, weave emotion and logic seamlessly, and provide compelling evidence. Continue to innovate and adapt your message as markets evolve to maintain leadership. Regularly benchmark against the best in class and solicit feedback from customers and partners to keep your narrative sharp. Share your insights internally to empower teams and externally to position yourself as a thought leader. This proactive approach will keep your value proposition ahead of the curve.")]

/-- Role-coaching paragraph from the role dispatch chain (part_003, lines 287-313). -/
def ceoCoaching : String :=
  "As a CEO your primary responsibility is to champion a unified value proposition across the organisation. Drive alignment between product, marketing and sales around a shared narrative and ensure resources support timely execution. Link the value story to strategic goals, emphasise organisational urgency and model the behaviour you expect from your teams in every interaction."

/-- Role-coaching paragraph from the role dispatch chain (part_003, lines 287-313). -/
def cfoCoaching : String :=
  "As a CFO focus on aligning investment with your value proposition. Use financial metrics to quantify the cost of inaction and the ROI of acting now. Collaborate with revenue and product leaders to ensure budgets support key initiatives and incorporate value calculators into planning. Demonstrate fiscal discipline while enabling growth."

/-- Role-coaching paragraph from the role dispatch chain (part_003, lines 287-313). -/
def croCoaching : String :=
  "As a Chief Revenue Officer, you must unify sales, marketing and customer success around a clear value narrative. Tie revenue goals to the Three Whys, drive accountability for consistent messaging and coach teams to balance emotion with logic. Leverage pipeline data to show urgency and guide resource allocation."

/-- Role-coaching paragraph from the role dispatch chain (part_003, lines 287-313). -/
def csoCoaching : String :=
  "As a Chief Strategy Officer, ensure your value proposition is embedded into strategic planning. Analyse market trends and competitive moves to anticipate why change and why now. Translate insights into actionable initiatives and communicate them clearly so the entire organisation understands its role in delivering on the strategy."

/-- Role-coaching paragraph from the role dispatch chain (part_003, lines 287-313). -/
def cpoCoaching : String :=
  "As a Chief Product Officer you must translate product capabilities into business outcomes. Ensure your roadmap tells a cohesive story that reflects real buyer pains and ambitions. Partner with marketing and sales to validate that new features map to customer problems, using interviews and data to uncover emotional drivers and adjust priorities accordingly."

/-- Role-coaching paragraph from the role dispatch chain (part_003, lines 287-313). -/
def cioCoaching : String :=
  "As a CIO your role is to enable the technology and data infrastructure that supports your value proposition. Provide analytics to quantify urgency and outcomes, and ensure systems capture customer feedback to refine messaging. Collaborate with product and revenue leaders to prioritise digital investments that reinforce the narrative."

/-- Role-coaching paragraph from the role dispatch chain (part_003, lines 287-313). -/
def ctoCoaching : String :=
  "As a CTO focus on the technical innovation that differentiates your company. Communicate how your architecture and product roadmap uniquely address buyer pain points and enable rapid change. Work with product and marketing teams to translate complex features into business value and inspire confidence in your technical vision."

/-- Role-coaching paragraph from the role dispatch chain (part_003, lines 287-313). -/
def chroCoaching : String :=
  "As a CHRO align your people strategy with the value proposition. Ensure recruitment, training and performance management emphasise the Three Whys so employees can articulate the message. Foster a culture where teams collaborate across functions to deliver on the promise and recognise behaviours that reinforce the narrative."

/-- Role-coaching paragraph from the role dispatch chain (part_003, lines 287-313). -/
def productCoaching : String :=
  "As a product leader you should translate product capabilities into business outcomes and ensure your roadmap tells a cohesive story. Partner closely with marketing and sales to validate that new features map to real customer problems. Use interviews and data to uncover emotional drivers and align messaging with market needs, then adapt plans accordingly."

/-- Role-coaching paragraph from the role dispatch chain (part_003, lines 287-313). -/
def marketingCoaching : String :=
  "As a marketing leader focus on articulating a clear narrative that resonates with your buyer’s fears and ambitions across all channels. Build campaigns around quantified proof and nurture leads through education on the Three Whys. Align closely with sales and product so messaging and assets reinforce one another and refine them based on market feedback."

/-- Role-coaching paragraph from the role dispatch chain (part_003, lines 287-313). -/
def salesCoaching : String :=
  "As a sales leader ensure your team understands the Three Whys and can articulate them in conversations of varying lengths. Coach reps to lead with emotion, back it with logic and tailor differentiation based on buyer persona. Regularly gather feedback from prospects and customers to refine your message and improve win rates."

/-- Role-coaching paragraph from the role dispatch chain (part_003, lines 287-313). -/
def directorCoaching : String :=
  "As a director you play a critical role in translating high‑level strategy into day‑to‑day execution. Ensure your team understands the value narrative and how their work supports it. Provide feedback from the front lines to refine messaging and coordinate cross‑functional initiatives that reinforce the Three Whys."

/-- Role-coaching paragraph from the role dispatch chain (part_003, lines 287-313). -/
def genericCoaching : String :=
  "As a business leader align with cross‑functional teams to build a unified value story. Ensure your objectives support the broader go‑to‑market strategy and contribute feedback to improve the value proposition. Encourage collaboration and continuous learning to help the organisation advance its message."

/-- Fixed coaching subsection explanation (part_003, lines 315-318). -/
def headlineExplainText : String :=
  "Craft a short, emotional hook that captures your buyer’s attention and summarises the change you enable. Make it memorable and aspirational."

/-- Fixed coaching subsection explanation (part_003, lines 315-318). -/
def urgencyExplainText : String :=
  "Explain why acting now matters. Link the buyer’s pain to near‑term risks or opportunities and demonstrate the cost of delay."

/-- Fixed coaching subsection explanation (part_003, lines 315-318). -/
def differentiatorsExplainText : String :=
  "List two to three unique capabilities and include at least one proof point, such as a case study or metric, to show how you stand out."

/-- Fixed coaching subsection explanation (part_003, lines 315-318). -/
def valueOutlineExplainText : String :=
  "Break down the quantitative value: baseline metrics, expected lift and payback period. Use real data or reasonable assumptions for credibility."

/-- The band-keyed next-actions table actionsMap (part_003, lines 322-358). -/
def actionsMap : List (String × List String) :=
  [  ("None",
    ["Identify your target buyer personas and conduct research to understand their pain points.",
     "Determine key triggers that make addressing the problem urgent and document them.",
     "List differentiators and gather at least one proof point (testimonial, statistic) for each.",
     "Draft an emotional headline paired with a logical benefit and refine it through feedback.",
     "Write a concise one‑sentence value proposition stating buyer, pain and outcome."]),
  ("Emerging",
    ["Interview customers to validate emotional drivers, pain points and urgency triggers.",
     "Collect data to quantify the costs of inaction and refine your urgency narrative.",
     "Document unique differentiators and gather case studies to support each claim.",
     "Experiment with emotional headlines that blend feeling with facts; test internally.",
     "Build a simple value calculator outlining assumptions and expected benefits."]),
  ("Basic",
    ["Deepen research on buyer emotions and triggers using surveys and analytics.",
     "Strengthen differentiators by adding unique proof points or proprietary insights.",
     "Gather more specific metrics to quantify the outcomes you promise.",
     "Align messaging across product, marketing and sales teams for consistency.",
     "Expand your value calculator to model various buyer scenarios."]),
  ("Advanced",
    ["Integrate new customer stories and industry trends to keep your narrative fresh.",
     "Add proprietary research or thought leadership to make your urgency story distinctive.",
     "Refine differentiators based on customer feedback and competitive analysis.",
     "Test advanced emotional hooks or storytelling techniques for your headline.",
     "Segment your value calculator by persona to tailor benefits more precisely."]),
  ("Leading",
    ["Continue innovating and evolving your message to stay ahead of market shifts.",
     "Regularly benchmark your value proposition against industry leaders for inspiration.",
     "Document and share insights internally and externally to reinforce thought leadership.",
     "Collect new success stories and update your metrics to maintain credibility.",
     "Train and coach your team to deliver your value proposition consistently across channels."])]

/-- Fixed coaching field text (part_003, lines 359-380). -/
def coachingHeadline : String :=
  "Elevate your value proposition"

/-- Fixed coaching field text (part_003, lines 359-380). -/
def coachingUrgency : String :=
  "Clarify the stakes and link your roadmap to near‑term outcomes."

/-- Fixed coaching field text (part_003, lines 359-380). -/
def coachingDifferentiators : String :=
  "Highlight unique capabilities and proof points that set you apart."

/-- Fixed coaching field text (part_003, lines 359-380). -/
def coachingValueOutline : String :=
  "Define baseline metrics, lift assumptions and payback timeframe."

/-- Fixed coaching field text (part_003, lines 359-380). -/
def finalValuePlaceholder : String :=
  "Craft your value proposition here by clearly stating who you serve, the problem you solve, and the impact you deliver."

/-- Result of classifying one answer: integer score and level label. -/
structure ClassifyResult where
  score : Nat
  level : String
  deriving Repr, DecidableEq

/-- Normalisation pipeline applied to one raw answer (part_003 lines
215, 219 and 228): trim, lower-case, strip every character outside
[a-z0-9\s], trim again. -/
def normaliseAnswer (raw : String) : String :=
  jsTrim (String.mk ((jsToLower (jsTrim raw)).data.filter keepChar))

/-- The unknown test of part_003 line 229: the normalised answer is empty
or exactly equals one of the unknown patterns. -/
def isUnknownAnswer (raw : String) : Bool :=
  (normaliseAnswer raw).isEmpty || unknownPatterns.contains (normaliseAnswer raw)

/-- Word count of part_003 line 216: zero for an empty trimmed answer,
else the length of the split of the trimmed answer on whitespace runs. -/
def wordCountOf (raw : String) : Nat :=
  let ans := jsTrim raw
  if ans.isEmpty then 0 else countWords ans.data

/-- The word-count banding of part_003 lines 233-245, as a function of
the token count alone. -/
def wordLevel (wc : Nat) : Nat × String :=
  if wc < 15 then (2, "Emerging")
  else if wc < 40 then (3, "Basic")
  else if wc < 80 then (4, "Advanced")
  else (5, "Leading")

/-- The per-answer classifier of part_003 lines 214-245. -/
def classifyAnswer (raw : String) : ClassifyResult :=
  let wc := wordCountOf raw
  if isUnknownAnswer raw then ⟨1, "None"⟩
  else if wc < 15 then ⟨2, "Emerging"⟩
  else if wc < 40 then ⟨3, "Basic"⟩
  else if wc < 80 then ⟨4, "Advanced"⟩
  else ⟨5, "Leading"⟩

/-- The request profile object; an absent field is modelled as none. -/
structure Profile where
  name : Option String
  role : Option String
  email : Option String
  organization : Option String
  deriving Repr, DecidableEq

/-- The answers object with keys q1..q6; an absent key is modelled as
none. -/
structure Answers where
  q1 : Option String
  q2 : Option String
  q3 : Option String
  q4 : Option String
  q5 : Option String
  q6 : Option String
  deriving Repr, DecidableEq

/-- The answer for one category key, with the empty string as default for
an absent key (part_003 line 215). -/
def answerFor (a : Answers) (key : String) : String :=
  (if key == "q1" then a.q1
   else if key == "q2" then a.q2
   else if key == "q3" then a.q3
   else if key == "q4" then a.q4
   else if key == "q5" then a.q5
   else if key == "q6" then a.q6
   else Option.none).getD ""

/-- The fixed category list of part_003 lines 68-75: dimension name and
its answer key, in report order. -/
def categories : List (String × String) :=
  [("Why change", "q1"), ("Why now", "q2"), ("Why your company", "q3"),
   ("Emotion–Logic", "q4"), ("Buyer‑as‑hero", "q5"), ("Clarity", "q6")]

/-- The six dimension names in report order. -/
def dimensionNames : List String := categories.map Prod.fst

/-- The five maturity level labels. -/
def levelNames : List String := ["None", "Emerging", "Basic", "Advanced", "Leading"]

/-- Lookup into messageTemplates by dimension name with an empty-object
default, then by level with an empty why/how pair as default (part_003
lines 246-247). -/
def lookupTemplate (dim level : String) : MsgPair :=
  (((messageTemplates.lookup dim).getD []).lookup level).getD ⟨"", ""⟩

/-- Ten times the numeric value of (totalScore / 6).toFixed(1) followed by
parseFloat (part_003 lines 253-254).  For every total the quotient
10*total/6 has fractional part 0, 1/3 or 2/3, so the IEEE-double toFixed
never sits on a rounding tie and its one-decimal result is exactly
floor((10*total+3)/6) tenths. -/
def avgTenths (total : Nat) : Nat := (10 * total + 3) / 6

/-- The band thresholds of part_003 lines 264-274, stated on tenths of
the average score. -/
def bandOfAvgTenths (t : Nat) : String :=
  if t < 20 then "None"
  else if t < 30 then "Emerging"
  else if t < 40 then "Basic"
  else if t < 50 then "Advanced"
  else "Leading"

/-- Numeric rank of a band label, in increasing maturity order. -/
def bandRank (b : String) : Nat :=
  if b == "None" then 0
  else if b == "Emerging" then 1
  else if b == "Basic" then 2
  else if b == "Advanced" then 3
  else 4

/-- The role dispatch chain of part_003 lines 287-313, applied to the
lower-cased role string, first match wins. -/
def roleCoachingText (roleLower : String) : String :=
  if jsIncludes roleLower "ceo" || jsIncludes roleLower "chief executive" then ceoCoaching
  else if jsIncludes roleLower "cfo" || jsIncludes roleLower "chief financial" then cfoCoaching
  else if jsIncludes roleLower "cro" || jsIncludes roleLower "chief revenue" then croCoaching
  else if jsIncludes roleLower "cso" || jsIncludes roleLower "chief strategy" then csoCoaching
  else if jsIncludes roleLower "cpo" || jsIncludes roleLower "chief product" then cpoCoaching
  else if jsIncludes roleLower "cio" || jsIncludes roleLower "chief information" then cioCoaching
  else if jsIncludes roleLower "cto" || jsIncludes roleLower "chief technology" then ctoCoaching
  else if jsIncludes roleLower "chro" || jsIncludes roleLower "chief human" then chroCoaching
  else if jsIncludes roleLower "product" then productCoaching
  else if jsIncludes roleLower "marketing" then marketingCoaching
  else if jsIncludes roleLower "sales" || jsIncludes roleLower "seller" then salesCoaching
  else if jsIncludes roleLower "director" then directorCoaching
  else genericCoaching

/-- Lookup into actionsMap by band, with the Basic list as the default
(part_003 line 378). -/
def actionsFor (band : String) : List String :=
  (actionsMap.lookup band).getD ((actionsMap.lookup "Basic").getD [])

/-- One entry of the report's dimensions array. -/
structure DimResult where
  name : String
  score : Nat
  level : String
  why : String
  how : String
  deriving Repr, DecidableEq

/-- The report's coaching block (part_003 lines 365-379). -/
structure Coaching where
  headline : String
  headlineExplain : String
  urgency : String
  urgencyExplain : String
  differentiators : String
  differentiatorsExplain : String
  valueOutline : String
  valueOutlineExplain : String
  coachingText : String
  salesSparxText : String
  finalValue : String
  nextActions : List String
  deriving Repr, DecidableEq

/-- The full report (part_003 lines 359-380).  averageTenths holds ten
times the numeric value of the JS string field averageScore. -/
structure Report where
  profile : Profile
  averageTenths : Nat
  band : String
  executiveSummary : String
  dimensions : List DimResult
  coaching : Coaching
  deriving Repr, DecidableEq

/-- The deterministic fallback scorer fallbackEvaluate of part_003,
lines 67-382. -/
def fallbackEvaluate (profile : Profile) (answers : Answers) : Report :=
  let dims := categories.map (fun cat =>
    let r := classifyAnswer (answerFor answers cat.2)
    let msg := lookupTemplate cat.1 r.level
    { name := cat.1, score := r.score, level := r.level,
      why := msg.why, how := msg.how : DimResult })
  let totalScore := (dims.map DimResult.score).sum
  let averageTenths := avgTenths totalScore
  let band := bandOfAvgTenths averageTenths
  { profile := profile
    averageTenths := averageTenths
    band := band
    executiveSummary := (summaryMap.lookup band).getD ""
    dimensions := dims
    coaching :=
      { headline := coachingHeadline
        headlineExplain := headlineExplainText
        urgency := coachingUrgency
        urgencyExplain := urgencyExplainText
        differentiators := coachingDifferentiators
        differentiatorsExplain := differentiatorsExplainText
        valueOutline := coachingValueOutline
        valueOutlineExplain := valueOutlineExplainText
        coachingText := roleCoachingText (jsToLower (profile.role.getD ""))
        salesSparxText := ""
        finalValue :=
          if (answers.q6.getD "").isEmpty then finalValuePlaceholder
          else jsTrim (answers.q6.getD "")
        nextActions := actionsFor band } }

/-- A minimal HTTP response: status, headers, body. -/
structure HttpResponse where
  status : Nat
  headers : List (String × String)
  body : String
  deriving Repr, DecidableEq

/-- The method gate of the part_003 handler (lines 385-390): for a
non-POST method it replies 405 with an Allow header and a JSON error
body; for POST it proceeds (none). -/
def nodeHandlerMethodGate (method : String) : Option HttpResponse :=
  if method ≠ "POST" then
    some ⟨405, [("Allow", "POST")], "\x7b\"error\":\"Method not allowed\"\x7d"⟩
  else Option.none

/-- The method gate of the edge handler in evaluate.js (line 7): for a
non-POST method it replies 405 with a JSON error body and no explicit
headers; for POST it proceeds (none). -/
def edgeHandlerMethodGate (method : String) : Option HttpResponse :=
  if method ≠ "POST" then
    some ⟨405, [], "\x7b\"error\":\"Use POST\"\x7d"⟩
  else Option.none

/-- Default dimension result, used only as the out-of-range fallback of
List.getD in statements about a report's dimensions. -/
def dimDefault : DimResult := ⟨"", 0, "", "", ""⟩

/-- Example input: a profile with every field absent. -/
def emptyProfile : Profile := ⟨Option.none, Option.none, Option.none, Option.none⟩

/-- Example input: an answer set with every key absent. -/
def emptyAnswers : Answers :=
  ⟨Option.none, Option.none, Option.none, Option.none, Option.none, Option.none⟩

/-- Example input: an 80-word answer. -/
def longAnswer : String := String.mk (List.flatten (List.replicate 80 ['w', ' ']))

/-- Example input: every answer 80 words long. -/
def longAnswers : Answers :=
  ⟨some longAnswer, some longAnswer, some longAnswer,
   some longAnswer, some longAnswer, some longAnswer⟩

/-- Example input: a 20-word answer. -/
def midAnswer : String := String.mk (List.flatten (List.replicate 20 ['w', ' ']))

/-- Example input: every answer 20 words long. -/
def midAnswers : Answers :=
  ⟨some midAnswer, some midAnswer, some midAnswer,
   some midAnswer, some midAnswer, some midAnswer⟩

end ThreeWhys
namespace ThreeWhys

/-! ### Helper lemmas -/

lemma avgTenths_eq_round (t : ℕ) : (avgTenths t : ℤ) = round ((t : ℚ) * 10 / 6) := by
  rw [round_eq]
  have h : ((t : ℚ) * 10 / 6 + 1 / 2) = ((10 * t + 3 : ℕ) : ℚ) / ((6 : ℕ) : ℚ) := by
    push_cast
    ring
  rw [h, Rat.floor_natCast_div_natCast]
  unfold avgTenths
  omega

lemma bandRank_bandOf_mono {t u : ℕ} (h : t ≤ u) :
    bandRank (bandOfAvgTenths t) ≤ bandRank (bandOfAvgTenths u) := by
  unfold bandOfAvgTenths
  split_ifs <;> first | decide | omega

lemma bandOf_mem (t : ℕ) : bandOfAvgTenths t ∈ levelNames := by
  unfold bandOfAvgTenths
  split_ifs <;> decide

lemma summaryFor_ne (t : ℕ) : (summaryMap.lookup (bandOfAvgTenths t)).getD "" ≠ "" := by
  unfold bandOfAvgTenths
  split_ifs <;> decide

lemma actionsFor_ne (t : ℕ) : actionsFor (bandOfAvgTenths t) ≠ [] := by
  unfold bandOfAvgTenths
  split_ifs <;> decide

set_option maxHeartbeats 4000000 in
lemma roleCoachingText_ne (r : String) : roleCoachingText r ≠ "" := by
  unfold roleCoachingText
  repeat' split
  all_goals
    simp [ceoCoaching, cfoCoaching, croCoaching, csoCoaching, cpoCoaching, cioCoaching,
      ctoCoaching, chroCoaching, productCoaching, marketingCoaching, salesCoaching,
      directorCoaching, genericCoaching]

lemma finalValue_spec (p : Profile) (a : Answers) :
    (fallbackEvaluate p a).coaching.finalValue
      = if (a.q6.getD "").isEmpty then finalValuePlaceholder
        else jsTrim (a.q6.getD "") := rfl

/-! ### Claims -/

/-- C1: an answer whose normalisation is empty, and the literal phrases
"n/a", "unknown" and "none", classify to level None with score 1 by exact
match of the normalised string; but the literal phrase "i don't know" does
not: its normalisation "i dont know" is missing from the pattern list
(whose own apostrophised entry can never equal an apostrophe-stripped
normalisation), so the classifier falls through to the word-count logic
and returns Emerging with score 2, contradicting the claim. -/
theorem c1_unknown_answers_lowest :
    classifyAnswer "" = ⟨1, "None"⟩ ∧
    classifyAnswer "  ?! " = ⟨1, "None"⟩ ∧
    classifyAnswer "n/a" = ⟨1, "None"⟩ ∧
    classifyAnswer "unknown" = ⟨1, "None"⟩ ∧
    classifyAnswer "none" = ⟨1, "None"⟩ ∧
    "i don\x27t know" ∈ unknownPatterns ∧
    normaliseAnswer "i don\x27t know" = "i dont know" ∧
    "i dont know" ∉ unknownPatterns ∧
    classifyAnswer "i don\x27t know" = ⟨2, "Emerging"⟩ := by
  refine ⟨by decide, by decide, by decide, by decide, by decide, by decide, by decide,
    by decide, by decide⟩

/-- C2: for every answer that the classifier does not treat as unknown,
the score and level are a function of the word count of the trimmed
answer through the banding wordLevel, whose bands are exhaustive and
non-overlapping with every boundary in the higher band: 14 words give
Emerging, 15 and 39 give Basic, 40 and 79 give Advanced, and 80 or more
give Leading. -/
theorem c2_word_count_bands :
    (∀ raw : String, isUnknownAnswer raw = false →
      ((classifyAnswer raw).score, (classifyAnswer raw).level)
        = wordLevel (wordCountOf raw)) ∧
    wordLevel 14 = (2, "Emerging") ∧
    wordLevel 15 = (3, "Basic") ∧
    wordLevel 39 = (3, "Basic") ∧
    wordLevel 40 = (4, "Advanced") ∧
    wordLevel 79 = (4, "Advanced") ∧
    (∀ wc : Nat, 80 ≤ wc → wordLevel wc = (5, "Leading")) := by
  refine ⟨?_, by decide, by decide, by decide, by decide, by decide, ?_⟩
  · intro raw h
    unfold classifyAnswer wordLevel
    simp only [h, Bool.false_eq_true, if_false]
    split_ifs <;> rfl
  · intro wc h
    unfold wordLevel
    rw [if_neg (by omega), if_neg (by omega), if_neg (by omega)]

/-- Witness for C2 at a concrete three-word answer and at the 80-word
boundary. -/
theorem c2_word_count_bands_witness :
    ((classifyAnswer "alpha beta gamma").score, (classifyAnswer "alpha beta gamma").level)
        = wordLevel (wordCountOf "alpha beta gamma") ∧
    wordLevel 80 = (5, "Leading") :=
  ⟨c2_word_count_bands.1 "alpha beta gamma" (by decide),
   c2_word_count_bands.2.2.2.2.2.2 80 (by decide)⟩

/-- C6: the narrative lookup is total over the six dimensions and five
levels with non-empty dimension-specific texts, no two dimensions share a
rationale text for the same level, and a missing entry yields the empty
placeholder pair instead of failing. -/
theorem c6_templates_total :
    (∀ d ∈ dimensionNames, ∀ l ∈ levelNames,
        (lookupTemplate d l).why ≠ "" ∧ (lookupTemplate d l).how ≠ "") ∧
    (∀ l ∈ levelNames,
        (dimensionNames.map (fun d => (lookupTemplate d l).why)).Nodup) ∧
    lookupTemplate "Pricing" "None" = ⟨"", ""⟩ ∧
    lookupTemplate "Why change" "Mythic" = ⟨"", ""⟩ := by
  refine ⟨by decide, by decide, by decide, by decide⟩

/-- Witness for C6 at a concrete dimension and level. -/
theorem c6_templates_total_witness :
    ((lookupTemplate "Why now" "Basic").why ≠ "" ∧
      (lookupTemplate "Why now" "Basic").how ≠ "") ∧
    (dimensionNames.map (fun d => (lookupTemplate d "Leading").why)).Nodup :=
  ⟨c6_templates_total.1 "Why now" (by decide) "Basic" (by decide),
   c6_templates_total.2.1 "Leading" (by decide)⟩

/-- C9 counterexample: the edge handler of evaluate.js answers a GET
request with status 405 and a JSON error body but with no Allow header at
all, refuting the claim that every non-POST request is answered with an
Allow: POST header by the handler. -/
theorem c9_counterexample :
    edgeHandlerMethodGate "GET"
      = some ⟨405, [], "\x7b\"error\":\"Use POST\"\x7d"⟩ ∧
    ("Allow", "POST") ∉
      (HttpResponse.mk 405 [] "\x7b\"error\":\"Use POST\"\x7d").headers := by
  decide

/-- C9 amended: for every non-POST method, the handler of part_003
responds 405 with an Allow: POST header and a JSON error body, while the
edge handler of evaluate.js responds 405 with a JSON error body and no
Allow header. -/
theorem c9_method_gate :
    ∀ method : String, method ≠ "POST" →
      nodeHandlerMethodGate method
          = some ⟨405, [("Allow", "POST")], "\x7b\"error\":\"Method not allowed\"\x7d"⟩ ∧
      edgeHandlerMethodGate method
          = some ⟨405, [], "\x7b\"error\":\"Use POST\"\x7d"⟩ := by
  intro m h
  constructor <;> simp [nodeHandlerMethodGate, edgeHandlerMethodGate, h]

/-- Witness for C9 at the GET method. -/
theorem c9_method_gate_witness :
    nodeHandlerMethodGate "GET"
        = some ⟨405, [("Allow", "POST")], "\x7b\"error\":\"Method not allowed\"\x7d"⟩ ∧
    edgeHandlerMethodGate "GET"
        = some ⟨405, [], "\x7b\"error\":\"Use POST\"\x7d"⟩ :=
  c9_method_gate "GET" (by decide)

/-- C10: coaching.finalValue echoes the trimmed q6 answer whenever q6 is
present and non-empty, and otherwise is the fixed placeholder sentence
beginning with Craft your value proposition here. -/
theorem c10_final_value :
    ∀ (p : Profile) (a : Answers),
      ((a.q6 = Option.none ∨ a.q6 = some "") →
        (fallbackEvaluate p a).coaching.finalValue = finalValuePlaceholder) ∧
      (∀ s : String, a.q6 = some s → s ≠ "" →
        (fallbackEvaluate p a).coaching.finalValue = jsTrim s) := by
  intro p a
  constructor
  · rintro (h | h) <;> rw [finalValue_spec, h] <;> rfl
  · intro s hs hne
    rw [finalValue_spec, hs]
    simp [String.isEmpty_iff, hne]

/-- Witness for C10 at a concrete non-empty q6 answer. -/
theorem c10_final_value_witness :
    (fallbackEvaluate ⟨Option.none, Option.none, Option.none, Option.none⟩
        ⟨Option.none, Option.none, Option.none, Option.none, Option.none,
          some " My value prop. "⟩).coaching.finalValue
      = jsTrim " My value prop. " :=
  (c10_final_value ⟨Option.none, Option.none, Option.none, Option.none⟩
      ⟨Option.none, Option.none, Option.none, Option.none, Option.none,
        some " My value prop. "⟩).2 " My value prop. " rfl (by decide)

end ThreeWhys
namespace ThreeWhys

/-! ### Further helper lemmas -/

lemma report_band_eq (p : Profile) (a : Answers) :
    (fallbackEvaluate p a).band
      = bandOfAvgTenths (avgTenths
          ((classifyAnswer (a.q1.getD "")).score + ((classifyAnswer (a.q2.getD "")).score +
           ((classifyAnswer (a.q3.getD "")).score + ((classifyAnswer (a.q4.getD "")).score +
           ((classifyAnswer (a.q5.getD "")).score + ((classifyAnswer (a.q6.getD "")).score +
             0))))))) := rfl

lemma answerFor_none_empty (k : String) :
    answerFor emptyAnswers k
      = answerFor ⟨some "", some "", some "", some "", some "", some ""⟩ k := by
  unfold answerFor
  split_ifs <;> rfl

/-! ### Claims (aggregation, structure, coaching, totality) -/

set_option maxRecDepth 16000 in
set_option maxHeartbeats 1600000 in
/-- C3: the report's average equals the arithmetic mean of the six
integer dimension scores rounded to one decimal place (held in tenths,
round(sum/6, 1)); six scores of 1 give average 1.0 with band None and six
scores of 5 give average 5.0 with band Leading. -/
theorem c3_average_score :
    (∀ (p : Profile) (a : Answers),
      (fallbackEvaluate p a).dimensions.length = 6 ∧
      ((fallbackEvaluate p a).averageTenths : ℤ)
        = round ((((fallbackEvaluate p a).dimensions.map DimResult.score).sum : ℚ)
            * 10 / 6)) ∧
    (fallbackEvaluate emptyProfile emptyAnswers).dimensions.map DimResult.score
        = [1, 1, 1, 1, 1, 1] ∧
    (fallbackEvaluate emptyProfile emptyAnswers).averageTenths = 10 ∧
    (fallbackEvaluate emptyProfile emptyAnswers).band = "None" ∧
    (fallbackEvaluate emptyProfile longAnswers).dimensions.map DimResult.score
        = [5, 5, 5, 5, 5, 5] ∧
    (fallbackEvaluate emptyProfile longAnswers).averageTenths = 50 ∧
    (fallbackEvaluate emptyProfile longAnswers).band = "Leading" := by
  refine ⟨fun p a => ⟨rfl, avgTenths_eq_round _⟩, by decide, by decide, by decide, by decide,
    by decide, by decide⟩

set_option maxRecDepth 16000 in
set_option maxHeartbeats 1600000 in
/-- C4: the band thresholds are monotone and cover every average (each
tenths value maps to exactly one of the five labels, non-decreasingly),
and a report whose six dimension scores are each strictly greater than
another report's corresponding scores never gets a lower band. -/
theorem c4_band_monotone :
    (∀ t u : Nat, t ≤ u → bandRank (bandOfAvgTenths t) ≤ bandRank (bandOfAvgTenths u)) ∧
    (∀ t : Nat, bandOfAvgTenths t ∈ levelNames) ∧
    (∀ (p1 p2 : Profile) (a1 a2 : Answers),
      (∀ i : Nat, i < 6 →
        ((fallbackEvaluate p2 a2).dimensions.getD i dimDefault).score
          < ((fallbackEvaluate p1 a1).dimensions.getD i dimDefault).score) →
      bandRank (fallbackEvaluate p2 a2).band ≤ bandRank (fallbackEvaluate p1 a1).band) := by
  refine ⟨fun t u h => bandRank_bandOf_mono h, bandOf_mem, ?_⟩
  intro p1 p2 a1 a2 h
  have h0 : (classifyAnswer (a2.q1.getD "")).score < (classifyAnswer (a1.q1.getD "")).score :=
    h 0 (by omega)
  have h1 : (classifyAnswer (a2.q2.getD "")).score < (classifyAnswer (a1.q2.getD "")).score :=
    h 1 (by omega)
  have h2 : (classifyAnswer (a2.q3.getD "")).score < (classifyAnswer (a1.q3.getD "")).score :=
    h 2 (by omega)
  have h3 : (classifyAnswer (a2.q4.getD "")).score < (classifyAnswer (a1.q4.getD "")).score :=
    h 3 (by omega)
  have h4 : (classifyAnswer (a2.q5.getD "")).score < (classifyAnswer (a1.q5.getD "")).score :=
    h 4 (by omega)
  have h5 : (classifyAnswer (a2.q6.getD "")).score < (classifyAnswer (a1.q6.getD "")).score :=
    h 5 (by omega)
  rw [report_band_eq p1 a1, report_band_eq p2 a2]
  refine bandRank_bandOf_mono ?_
  unfold avgTenths
  exact Nat.div_le_div_right (by omega)

set_option maxRecDepth 16000 in
set_option maxHeartbeats 1600000 in
/-- Witness for C4: the band of ten tenths is at most the band of thirty
tenths, and the all-absent answer set (six scores of 1) never outranks
the twenty-word answer set (six scores of 3). -/
theorem c4_band_monotone_witness :
    bandRank (bandOfAvgTenths 10) ≤ bandRank (bandOfAvgTenths 30) ∧
    bandRank (fallbackEvaluate emptyProfile emptyAnswers).band
      ≤ bandRank (fallbackEvaluate emptyProfile midAnswers).band :=
  ⟨c4_band_monotone.1 10 30 (by omega),
   c4_band_monotone.2.2 emptyProfile emptyProfile midAnswers emptyAnswers (by decide)⟩

/-- C5: every report contains exactly six dimension results, one per
dimension in the fixed order Why change, Why now, Why your company,
Emotion–Logic, Buyer-as-hero, Clarity, each scored and levelled from that
dimension's own answer key q1..q6. -/
theorem c5_six_dimensions :
    ∀ (p : Profile) (a : Answers),
      (fallbackEvaluate p a).dimensions.length = 6 ∧
      (fallbackEvaluate p a).dimensions.map DimResult.name
          = ["Why change", "Why now", "Why your company",
             "Emotion–Logic", "Buyer‑as‑hero", "Clarity"] ∧
      (fallbackEvaluate p a).dimensions.map DimResult.score
          = [(classifyAnswer (a.q1.getD "")).score, (classifyAnswer (a.q2.getD "")).score,
             (classifyAnswer (a.q3.getD "")).score, (classifyAnswer (a.q4.getD "")).score,
             (classifyAnswer (a.q5.getD "")).score, (classifyAnswer (a.q6.getD "")).score] ∧
      (fallbackEvaluate p a).dimensions.map DimResult.level
          = [(classifyAnswer (a.q1.getD "")).level, (classifyAnswer (a.q2.getD "")).level,
             (classifyAnswer (a.q3.getD "")).level, (classifyAnswer (a.q4.getD "")).level,
             (classifyAnswer (a.q5.getD "")).level, (classifyAnswer (a.q6.getD "")).level] :=
  fun _ _ => ⟨rfl, rfl, rfl, rfl⟩

set_option maxRecDepth 16000 in
set_option maxHeartbeats 1600000 in
/-- C7: role coaching is chosen first-match-wins over the ordered
case-insensitive substring patterns with a generic fallback paragraph;
the role "Chief Product Officer" also matches the looser "product"
pattern yet selects the CPO paragraph, and the next-actions list is the
one keyed by the report's own band. -/
theorem c7_role_dispatch :
    (∀ (p : Profile) (a : Answers),
      (fallbackEvaluate p a).coaching.coachingText
          = roleCoachingText (jsToLower (p.role.getD "")) ∧
      (fallbackEvaluate p a).coaching.nextActions
          = actionsFor (fallbackEvaluate p a).band) ∧
    roleCoachingText (jsToLower "Chief Product Officer") = cpoCoaching ∧
    jsIncludes (jsToLower "Chief Product Officer") "product" = true ∧
    cpoCoaching ≠ productCoaching ∧
    roleCoachingText (jsToLower "Senior Engineer") = genericCoaching := by
  refine ⟨fun p a => ⟨rfl, rfl⟩, by decide, by decide, by decide, by decide⟩

set_option maxRecDepth 16000 in
set_option maxHeartbeats 1600000 in
/-- C8: the fallback scorer is total: every input, including the
all-absent profile and answers, yields a complete report with six
dimensions, a band from the closed label set, a non-empty executive
summary, non-empty coaching text and a non-empty next-actions list; an
absent answer set behaves exactly like empty strings, and an absent role
yields the same coaching as an empty role string. -/
theorem c8_total_scorer :
    (∀ (p : Profile) (a : Answers),
      (fallbackEvaluate p a).dimensions.length = 6 ∧
      (fallbackEvaluate p a).band ∈ levelNames ∧
      (fallbackEvaluate p a).executiveSummary ≠ "" ∧
      (fallbackEvaluate p a).coaching.coachingText ≠ "" ∧
      (fallbackEvaluate p a).coaching.nextActions ≠ []) ∧
    (∀ k : String,
      answerFor emptyAnswers k
        = answerFor ⟨some "", some "", some "", some "", some "", some ""⟩ k) ∧
    fallbackEvaluate emptyProfile emptyAnswers
        = fallbackEvaluate emptyProfile ⟨some "", some "", some "", some "", some "", some ""⟩ ∧
    (fallbackEvaluate emptyProfile emptyAnswers).coaching
        = (fallbackEvaluate ⟨some "", some "", some "", some ""⟩ emptyAnswers).coaching ∧
    (fallbackEvaluate emptyProfile emptyAnswers).band = "None" := by
  refine ⟨?_, answerFor_none_empty, ?_, ?_, by decide⟩
  · intro p a
    exact ⟨rfl, bandOf_mem _, summaryFor_ne _, roleCoachingText_ne _, actionsFor_ne _⟩
  · have h : answerFor emptyAnswers
        = answerFor ⟨some "", some "", some "", some "", some "", some ""⟩ :=
      funext answerFor_none_empty
    simp only [fallbackEvaluate, h]
    rfl
  · simp only [fallbackEvaluate]
    rfl

end ThreeWhys
